import Mathlib

/-
  Verification development for the `lg_tv_remote.py` repository.

  Shallow embedding of the two core subsystems:
  * the `LGTVRemote` device-session command surface (device calls are
    recorded as explicit traces of `DeviceCall` values),
  * the sync-to-async command bridge (`run_async` over an abstract
    outcome of the submitted coroutine),
  * the app resolver inside `TVRemoteGUI.launch_app_smart` (catalog
    scan with symmetric case-insensitive substring match, then the
    static fallback table), and
  * the config / pairing-key lifecycle of `TVRemoteGUI`
    (`load_config` / `save_config` / `connect_tv`).

  Python strings are modelled as Lean `String`; `str.lower()` is
  modelled as an ASCII lowering (identical to Python on the ASCII
  inputs appearing in this program), and the substring operator
  `a in b` is modelled by an executable scan over the character lists.
-/

namespace LGTV

/- ### String primitives: Python `in` and `.lower()` -/

/-- Does the character list `h` start with the list `n`?
(Models the prefix test used to define the Python substring operator.) -/
def startsWithL : List Char → List Char → Bool
  | _, [] => true
  | [], _ :: _ => false
  | c :: cs, d :: ds => c == d && startsWithL cs ds

/-- Does the character list `h` contain `n` as a contiguous run?
Models Python `n in h` on strings. -/
def containsSub : List Char → List Char → Bool
  | [], n => n.isEmpty
  | c :: t, n => startsWithL (c :: t) n || containsSub t n

/-- Python `needle in hay` for strings. -/
def strContains (hay needle : String) : Bool :=
  containsSub hay.data needle.data

/-- Python `str.lower()` (ASCII range; identical to Python on the
ASCII strings this program passes in). -/
def pyLower (s : String) : String :=
  ⟨s.data.map Char.toLower⟩

/-- Abstract substring relation: `needle` occurs contiguously in `hay`. -/
def IsSubstr (needle hay : String) : Prop :=
  ∃ p s, hay.data = p ++ needle.data ++ s

/-- Python `str.strip()`: drop leading and trailing whitespace. -/
def pyStrip (s : String) : String :=
  ⟨(((s.data.dropWhile Char.isWhitespace).reverse.dropWhile Char.isWhitespace).reverse)⟩

/-- Python falsiness of a string (`if not ip:`): true iff empty. -/
def pyIsEmpty (s : String) : Bool :=
  s.data.isEmpty

/- ### App resolver (`TVRemoteGUI.launch_app_smart`, source lines 382-429) -/

/-- One entry of the live app catalog returned by the device
(`app.get('id','')`, `app.get('title','')`). -/
structure AppEntry where
  id : String
  title : String
deriving DecidableEq

/-- The match test of the catalog scan (source line 395):
`app_name.lower() in app_title or app_title in app_name.lower()`,
where `app_title` is the already-lowered entry title. -/
def matchesEntry (name : String) (e : AppEntry) : Bool :=
  strContains (pyLower e.title) (pyLower name) || strContains (pyLower name) (pyLower e.title)

/-- The tier-1 scan: first catalog entry matching the requested name,
in catalog order (source lines 390-398). -/
def findCatalogMatch (name : String) : List AppEntry → Option AppEntry
  | [] => none
  | e :: rest => if matchesEntry name e then some e else findCatalogMatch name rest

/-- The static fallback table (source lines 401-413), in source order. -/
def fallback_ids : List (String × List String) :=
  [ ("Netflix", ["netflix"]),
    ("YouTube", ["youtube.leanback.v4", "youtube"]),
    ("Prime Video", ["amazon", "primevideo"]),
    ("Disney+", ["com.disney.disneyplus-prod", "disney"]),
    ("Hulu", ["hulu"]),
    ("Apple TV", ["com.apple.appletv", "appletv"]),
    ("HBO Max", ["com.hbo.hbonow", "hbomax", "com.hbo.max"]),
    ("Peacock", ["com.peacocktv.peacocktv", "peacock", "com.peacocktv"]),
    ("ESPN", ["espn", "com.espn.webostv", "com.espn.app"]),
    ("Food Network", ["com.scripts.foodnetwork", "foodnetwork", "com.foodnetwork"]),
    ("Paramount+", ["com.cbs.app", "paramountplus", "com.paramount"]) ]

/-- Python `app_name in fallback_ids` / `fallback_ids[app_name]`:
exact (case-sensitive) key lookup in the table. -/
def lookupFallback (name : String) : Option (List String) :=
  (fallback_ids.find? fun p => p.1 == name).map fun p => p.2

/-- Candidate identifiers `launch_app_smart` resolves (and attempts) for a
requested name: the single id of the first catalog match when one exists,
else the full fallback sequence for the name, else nothing
(source lines 387-424; a missing or empty catalog scans as `[]`). -/
def resolveCandidates (catalog : List AppEntry) (name : String) : List String :=
  match findCatalogMatch name catalog with
  | some e => [e.id]
  | none =>
    match lookupFallback name with
    | some ids => ids
    | none => []

/- ### Device session (`class LGTVRemote`, source lines 18-140)

Each operation is modelled by the trace of device calls it performs on
the underlying `WebOsClient`; an empty trace means the operation
returned silently without touching the device. -/

/-- One call on the underlying `aiowebostv.WebOsClient`. -/
inductive DeviceCall where
  | volumeUp
  | volumeDown
  | getMuted
  | setMute (b : Bool)
  | powerOff
  | button (name : String)
  | launchApp (id : String)
  | getApps
  | connectCall
  | disconnectCall
deriving DecidableEq

/-- The state of a constructed `WebOsClient` relevant to this model:
the device-side mute flag and app list it would report, and the
client key it currently holds. -/
structure Client where
  muted : Bool
  apps : List AppEntry
  client_key : Option String
deriving DecidableEq

/-- The fields of `LGTVRemote.__init__` (source lines 19-23). -/
structure LGTVRemote where
  client : Option Client
  connected : Bool
  tv_ip : String
  client_key : Option String
deriving DecidableEq

/-- `LGTVRemote.volume_up` (source lines 49-52): guarded only by
`if self.client:`. -/
def volume_up (r : LGTVRemote) : List DeviceCall :=
  match r.client with
  | some _ => [DeviceCall.volumeUp]
  | none => []

/-- `LGTVRemote.volume_down` (source lines 54-57). -/
def volume_down (r : LGTVRemote) : List DeviceCall :=
  match r.client with
  | some _ => [DeviceCall.volumeDown]
  | none => []

/-- `LGTVRemote.mute_toggle` (source lines 59-62):
`await self.client.set_mute(not await self.client.get_muted())`. -/
def mute_toggle (r : LGTVRemote) : List DeviceCall :=
  match r.client with
  | some c => [DeviceCall.getMuted, DeviceCall.setMute (!c.muted)]
  | none => []

/-- `LGTVRemote.power_off` (source lines 64-67). -/
def power_off (r : LGTVRemote) : List DeviceCall :=
  match r.client with
  | some _ => [DeviceCall.powerOff]
  | none => []

/-- `LGTVRemote.launch_app` (source lines 69-72). -/
def launch_app (r : LGTVRemote) (app_id : String) : List DeviceCall :=
  match r.client with
  | some _ => [DeviceCall.launchApp app_id]
  | none => []

/-- The shared shape of the twelve button methods
(`nav_up` ... `media_fastforward`, source lines 74-133):
`if self.client: await self.client.button(name)`. -/
def button_press (r : LGTVRemote) (name : String) : List DeviceCall :=
  match r.client with
  | some _ => [DeviceCall.button name]
  | none => []

/-- `LGTVRemote.nav_up` (source lines 74-77). -/
def nav_up (r : LGTVRemote) : List DeviceCall := button_press r ("UP")

/-- `LGTVRemote.nav_down` (source lines 79-82). -/
def nav_down (r : LGTVRemote) : List DeviceCall := button_press r ("DOWN")

/-- `LGTVRemote.nav_ok` (source lines 94-97). -/
def nav_ok (r : LGTVRemote) : List DeviceCall := button_press r ("ENTER")

/-- `LGTVRemote.get_apps` (source lines 135-140): trace and returned
catalog; returns `[]` without device I/O when no client exists. -/
def get_apps (r : LGTVRemote) : List DeviceCall × List AppEntry :=
  match r.client with
  | some c => ([DeviceCall.getApps], c.apps)
  | none => ([], [])

/-- The device-side behaviour of one connect attempt: whether
`await self.client.connect()` succeeds, and if so which client key and
device state the client ends up holding. -/
structure DeviceBehavior where
  accept : Bool
  issued_key : String
  muted : Bool
  apps : List AppEntry
deriving DecidableEq

/-- `LGTVRemote.connect_to_tv` (source lines 25-37). The new
`WebOsClient` is assigned to `self.client` *before* the awaited
`connect()`; on failure the exception is caught, `False` is returned,
and `client`, `connected`, `tv_ip`, `client_key` keep whatever values
they then have. -/
def connect_to_tv (r : LGTVRemote) (ip_address : String) (client_key : Option String)
    (dev : DeviceBehavior) : LGTVRemote × Bool :=
  let newClient : Client := { muted := dev.muted, apps := dev.apps, client_key := client_key }
  let r1 : LGTVRemote := { r with client := some newClient }
  if dev.accept then
    let c2 : Client := { newClient with client_key := some dev.issued_key }
    ({ r1 with client := some c2, connected := true, tv_ip := ip_address,
               client_key := some dev.issued_key }, true)
  else
    (r1, false)

/-- `LGTVRemote.disconnect` (source lines 43-47): clears `connected`
but never the stored `client_key`. -/
def tv_disconnect (r : LGTVRemote) : LGTVRemote × List DeviceCall :=
  match r.client with
  | some _ => ({ r with connected := false }, [DeviceCall.disconnectCall])
  | none => (r, [])

/- ### Command bridge (`TVRemoteGUI.run_async`, source lines 311-330) -/

/-- Outcome of one submitted coroutine as observed at
`future.result(timeout=10)`: a value, an exception raised during
execution or result delivery, or expiry of the 10-second wait. -/
inductive AsyncOutcome (α : Type) where
  | ok (v : α)
  | raised (msg : String)
  | timedOut
deriving DecidableEq

/-- `str(concurrent.futures.TimeoutError())` — the empty message the
timeout exception carries when `future.result` times out. -/
def timeoutErrorMsg : String := ""

/-- `future.result(timeout=10)`: returns the value or raises. -/
def future_result {α : Type} (o : AsyncOutcome α) : Except String α :=
  match o with
  | AsyncOutcome.ok v => Except.ok v
  | AsyncOutcome.raised m => Except.error m
  | AsyncOutcome.timedOut => Except.error timeoutErrorMsg

/-- `TVRemoteGUI.run_async` (source lines 322-330): result returned to
the caller paired with the status-bar message written, if any. Every
exception from `future.result` is caught by the bare `except` and
reported as `"Error: ..."` with `None` returned; when the loop has not
been started the coroutine is never submitted and `None` is returned. -/
def run_async {α : Type} (loopStarted : Bool) (o : AsyncOutcome α) :
    Option α × Option String :=
  if loopStarted then
    match future_result o with
    | Except.ok v => (some v, none)
    | Except.error m => (none, some ("Error: " ++ m))
  else
    (none, none)

/-- Number of times `run_async` submits the coroutine to the worker
loop (`asyncio.run_coroutine_threadsafe`, source line 325): once when
the loop exists, never otherwise — there is no retry path. -/
def run_async_submissions (loopStarted : Bool) : Nat :=
  if loopStarted then 1 else 0

/-- Handling of one submission as seen by the worker's execution
context: `run_async` wraps the entire wait in `try/except`, so no
exception of the submission escapes toward the worker loop
(`asyncio.run_forever` keeps coroutine exceptions inside the future;
the caller-side `try` catches everything `future.result` re-raises). -/
def try_handle {α : Type} (o : AsyncOutcome α) :
    Except String (Option α × Option String) :=
  Except.ok (run_async true o)

/-- The worker loop processing a sequence of submissions
(`start_async_loop`, source lines 311-320, plus one `run_async` per
submission): delivers one response per submission, and terminates
early — second component `false` — only if some submission's handling
escaped as an uncaught fault. -/
def worker_process {α : Type} : List (AsyncOutcome α) →
    List (Option α × Option String) × Bool
  | [] => ([], true)
  | o :: rest =>
    match try_handle o with
    | Except.ok r =>
      let rec_result := worker_process rest
      (r :: rec_result.1, rec_result.2)
    | Except.error _ => ([], false)

/- ### Tier-2 fallback loop (`launch_app_smart`, source lines 415-422) -/

/-- The fallback loop body: for each candidate id in order,
`run_async(self.remote.launch_app(app_id))`, a status update and
`time.sleep(0.5)`; the surrounding `try/except: continue` moves to the
next candidate on an exception, and there is no `break` or `return`
in the loop. Records each attempted id with the value `run_async`
returned for it. -/
def smart_fallback_loop (loopStarted : Bool) (out : String → AsyncOutcome Unit) :
    List String → List (String × Option Unit)
  | [] => []
  | aid :: rest =>
    let res := run_async loopStarted (out aid)
    (aid, res.1) :: smart_fallback_loop loopStarted out rest

/- ### GUI state, config store and pairing key (`TVRemoteGUI`) -/

/-- The persisted `tv_remote_config.json` record (source lines 332-353):
both fields are written by `json.dump` and read with `.get`, so each
may be absent or `null`. -/
structure Config where
  tv_ip : Option String
  client_key : Option String
deriving DecidableEq

/-- The `TVRemoteGUI` state relevant to the pairing-key lifecycle. -/
structure GUIState where
  remote : LGTVRemote
  ip_entry : String
  saved_client_key : Option String
  config_file : Option Config
deriving DecidableEq

/-- `TVRemoteGUI.load_config` (source lines 344-353): seeds `ip_entry`
and `saved_client_key` from the config file, with defaults when the
file is missing or unreadable. -/
def load_config (st : GUIState) : GUIState :=
  match st.config_file with
  | some cfg =>
    { st with ip_entry := cfg.tv_ip.getD ("192.168.1.100"),
              saved_client_key := cfg.client_key }
  | none =>
    { st with ip_entry := "192.168.1.100", saved_client_key := none }

/-- `TVRemoteGUI.save_config` (source lines 332-342): overwrites the
whole config file with the current entry text and the remote's current
client key. -/
def save_config (st : GUIState) : GUIState :=
  let cfg : Config := { tv_ip := some st.ip_entry, client_key := st.remote.client_key }
  { st with config_file := some cfg }

/-- The key `connect_tv` passes to `connect_to_tv` (source line 367):
`getattr(self, 'saved_client_key', None)` — always the key loaded at
startup, not the remote's current key. -/
def suppliedKey (st : GUIState) : Option String :=
  st.saved_client_key

/-- `TVRemoteGUI.connect_tv` (source lines 355-380): strip the entry,
bail out on an empty address, connect with the startup-loaded key, and
on success `save_config` (status-bar and widget updates are not part
of the state model). -/
def connect_tv (st : GUIState) (dev : DeviceBehavior) : GUIState :=
  let ip := pyStrip st.ip_entry
  if pyIsEmpty ip then
    st
  else
    let res := connect_to_tv st.remote ip (suppliedKey st) dev
    let st2 : GUIState := { st with remote := res.1 }
    if res.2 then save_config st2 else st2

/- ### Listbox double-click handler (`launch_selected_app`, lines 530-536) -/

/-- Every attribute the `TVRemoteGUI` object carries: the methods
defined in the class body (source lines 143-544) and the instance
attributes assigned in `__init__`, `setup_gui` and `load_config`. -/
def tvRemoteGUI_attrs : List String :=
  [ "remote", "loop", "config_file", "root", "ip_entry", "connect_btn",
    "status_label", "apps_listbox", "status_bar", "saved_client_key",
    "setup_gui", "start_async_loop", "run_async", "save_config", "load_config",
    "connect_tv", "launch_app_smart", "launch_espn", "update_status",
    "nav_up", "nav_down", "nav_left", "nav_right", "nav_ok", "nav_home", "nav_back",
    "volume_up", "volume_down", "mute_toggle",
    "media_play", "media_pause", "media_stop", "media_rewind", "media_fastforward",
    "power_off", "refresh_apps", "launch_selected_app", "run" ]

/-- `TVRemoteGUI.launch_selected_app` (source lines 530-536) for a
selected title: `self.launch_app(...)` first resolves the attribute
`launch_app` on the GUI object; if it existed the handler would issue
one launch with the lower-cased, space-stripped title, otherwise the
lookup raises `AttributeError` before any device call. `none` models
an empty selection, for which the handler does nothing. -/
def launch_selected_app (selection : Option String) :
    Except String (List DeviceCall) :=
  match selection with
  | none => Except.ok []
  | some app_name =>
    if tvRemoteGUI_attrs.contains ("launch_app") then
      Except.ok [DeviceCall.launchApp ((pyLower app_name).replace (" ") (""))]
    else
      Except.error ("AttributeError")

/- ### Concrete states used by witnesses and counterexamples -/

/-- A freshly constructed `LGTVRemote` (source lines 19-23). -/
def freshRemote : LGTVRemote :=
  { client := none, connected := false, tv_ip := "", client_key := none }

/-- A device that rejects the connection attempt. -/
def devReject : DeviceBehavior :=
  { accept := false, issued_key := "", muted := false, apps := [] }

/-- A device that accepts the connection and issues client key `"k"`. -/
def devAccept : DeviceBehavior :=
  { accept := true, issued_key := "k", muted := false, apps := [] }

/-- The remote after a failed connect attempt from the fresh state. -/
def rFailed : LGTVRemote :=
  (connect_to_tv freshRemote ("192.168.1.100") none devReject).1

/-- A connected remote with an unmuted client. -/
def rConnected : LGTVRemote :=
  (connect_to_tv freshRemote ("192.168.1.100") none devAccept).1

/-- A fresh GUI session with no stored config. -/
def st0 : GUIState :=
  { remote := freshRemote, ip_entry := "192.168.1.100",
    saved_client_key := none, config_file := none }

/-- The GUI session after its first successful connect (pairing key
`"k"` newly obtained during this session). -/
def st1 : GUIState := connect_tv st0 devAccept

/-- All fallback attempts succeed. -/
def allOk : String → AsyncOutcome Unit := fun _ => AsyncOutcome.ok ()

end LGTV

namespace LGTV

/- ### Helper lemmas on the string primitives -/

theorem startsWithL_iff (n : List Char) :
    ∀ h : List Char, startsWithL h n = true ↔ ∃ s, h = n ++ s := by
  induction n with
  | nil =>
    intro h
    simp [startsWithL]
  | cons d ds ih =>
    intro h
    cases h with
    | nil =>
      simp [startsWithL]
    | cons c cs =>
      rw [startsWithL]
      rw [Bool.and_eq_true, beq_iff_eq, ih cs]
      constructor
      · rintro ⟨rfl, s, rfl⟩
        exact ⟨s, rfl⟩
      · rintro ⟨s, hs⟩
        injection hs with h1 h2
        exact ⟨h1, s, h2⟩

theorem containsSub_iff (n : List Char) :
    ∀ h : List Char, containsSub h n = true ↔ ∃ p s, h = p ++ n ++ s := by
  intro h
  induction h with
  | nil =>
    rw [containsSub]
    cases n with
    | nil => simp
    | cons d ds => simp [List.isEmpty]
  | cons c t ih =>
    rw [containsSub, Bool.or_eq_true, startsWithL_iff, ih]
    constructor
    · rintro (⟨s, hs⟩ | ⟨p, s, hs⟩)
      · exact ⟨[], s, by simpa using hs⟩
      · exact ⟨c :: p, s, by simp [hs]⟩
    · rintro ⟨p, s, hs⟩
      cases p with
      | nil =>
        exact Or.inl ⟨s, by simpa using hs⟩
      | cons q qs =>
        injection hs with h1 h2
        exact Or.inr ⟨qs, s, by simp [h2]⟩

theorem strContains_iff (hay needle : String) :
    strContains hay needle = true ↔ IsSubstr needle hay := by
  rw [strContains, containsSub_iff]
  rfl

theorem matchesEntry_iff (name : String) (e : AppEntry) :
    matchesEntry name e = true ↔
      IsSubstr (pyLower name) (pyLower e.title) ∨ IsSubstr (pyLower e.title) (pyLower name) := by
  rw [matchesEntry, Bool.or_eq_true, strContains_iff, strContains_iff]

theorem findCatalogMatch_eq_none (name : String) :
    ∀ catalog : List AppEntry,
      (∀ x ∈ catalog, matchesEntry name x = false) →
      findCatalogMatch name catalog = none := by
  intro catalog
  induction catalog with
  | nil => intro _; rfl
  | cons e rest ih =>
    intro hall
    rw [findCatalogMatch]
    rw [hall e (List.mem_cons_self e rest)]
    simpa using ih fun x hx => hall x (List.mem_cons_of_mem e hx)

theorem findCatalogMatch_first (name : String) (e : AppEntry) (post : List AppEntry) :
    ∀ pre : List AppEntry,
      (∀ x ∈ pre, matchesEntry name x = false) →
      matchesEntry name e = true →
      findCatalogMatch name (pre ++ e :: post) = some e := by
  intro pre
  induction pre with
  | nil =>
    intro _ he
    rw [List.nil_append, findCatalogMatch, he]
    rfl
  | cons q qs ih =>
    intro hall he
    rw [List.cons_append, findCatalogMatch]
    rw [hall q (List.mem_cons_self q qs)]
    simpa using ih (fun x hx => hall x (List.mem_cons_of_mem q hx)) he

/- ### Claim theorems -/

/-- Claim C1 counterexample: after a failed connect from the fresh
state the session is not connected, yet `volume_up` performs device
I/O instead of failing with `NotConnected` and doing none — device I/O
is not restricted to the connected state. -/
theorem notconnected_guard_counterexample :
    rFailed.connected = false ∧ volume_up rFailed = [DeviceCall.volumeUp] :=
  ⟨rfl, rfl⟩

/-- Claim C1 (amended): every device operation is guarded only by the
client field being non-null: it performs no device I/O and returns
silently (raising no `NotConnected` failure) exactly when
`client = none`, and attempts device I/O whenever `client ≠ none`,
regardless of the `connected` flag; `get_apps` additionally returns
`[]` in the guarded case. -/
theorem device_io_guarded_by_client (r : LGTVRemote) (app_id bname : String) :
    (volume_up r = [] ↔ r.client = none)
    ∧ (volume_down r = [] ↔ r.client = none)
    ∧ (mute_toggle r = [] ↔ r.client = none)
    ∧ (power_off r = [] ↔ r.client = none)
    ∧ (launch_app r app_id = [] ↔ r.client = none)
    ∧ (button_press r bname = [] ↔ r.client = none)
    ∧ ((get_apps r).1 = [] ↔ r.client = none)
    ∧ (r.client = none → (get_apps r).2 = []) := by
  cases hc : r.client <;>
    simp [volume_up, volume_down, mute_toggle, power_off, launch_app,
          button_press, get_apps, hc]

theorem device_io_guarded_by_client_witness :
    (volume_up freshRemote = [] ↔ freshRemote.client = none)
    ∧ (volume_down freshRemote = [] ↔ freshRemote.client = none)
    ∧ (mute_toggle freshRemote = [] ↔ freshRemote.client = none)
    ∧ (power_off freshRemote = [] ↔ freshRemote.client = none)
    ∧ (launch_app freshRemote ("netflix") = [] ↔ freshRemote.client = none)
    ∧ (button_press freshRemote ("UP") = [] ↔ freshRemote.client = none)
    ∧ ((get_apps freshRemote).1 = [] ↔ freshRemote.client = none)
    ∧ (freshRemote.client = none → (get_apps freshRemote).2 = []) :=
  device_io_guarded_by_client freshRemote ("netflix") ("UP")

/-- Claim C2 counterexample: with the tier-2 candidate list for
"YouTube" and every attempt succeeding, the loop still attempts the
second candidate after the first successful one — it does not stop at
the first attempt that does not raise. -/
theorem fallback_no_short_circuit_counterexample :
    lookupFallback ("YouTube") = some ["youtube.leanback.v4", "youtube"]
    ∧ (smart_fallback_loop true allOk ["youtube.leanback.v4", "youtube"]).map Prod.fst
        = ["youtube.leanback.v4", "youtube"]
    ∧ (smart_fallback_loop true allOk ["youtube.leanback.v4", "youtube"]).map Prod.fst
        ≠ ["youtube.leanback.v4"] := by
  refine ⟨by decide, rfl, by decide⟩

/-- Claim C2 (amended): for every tier-2 candidate list the launcher
attempts every candidate through the bridge in list order (with the
0.5-second pause after each attempt), regardless of the outcome of
earlier attempts; in particular it does not stop after a successful
attempt. -/
theorem fallback_attempts_every_candidate (loopStarted : Bool)
    (out : String → AsyncOutcome Unit) (ids : List String) :
    (smart_fallback_loop loopStarted out ids).map Prod.fst = ids := by
  induction ids with
  | nil => rfl
  | cons a rest ih => simp [smart_fallback_loop, ih]

theorem fallback_attempts_every_candidate_witness :
    (smart_fallback_loop true allOk ["espn", "com.espn.webostv", "com.espn.app"]).map Prod.fst
      = ["espn", "com.espn.webostv", "com.espn.app"] :=
  fallback_attempts_every_candidate true allOk ["espn", "com.espn.webostv", "com.espn.app"]

/-- Claim C3: the resolver scans the catalog once in order; an entry
matches iff the lower-cased requested name is a substring of the
lower-cased title or the lower-cased title is a substring of the
lower-cased requested name, and at the first match the resolver
returns exactly `[entry.id]`, regardless of later entries and of the
alias table. -/
theorem resolver_catalog_first_match (pre post : List AppEntry) (e : AppEntry) (name : String)
    (hpre : ∀ x ∈ pre, matchesEntry name x = false)
    (he : matchesEntry name e = true) :
    resolveCandidates (pre ++ e :: post) name = [e.id]
    ∧ (matchesEntry name e = true ↔
        IsSubstr (pyLower name) (pyLower e.title)
        ∨ IsSubstr (pyLower e.title) (pyLower name)) := by
  constructor
  · simp [resolveCandidates, findCatalogMatch_first name e post pre hpre he]
  · exact matchesEntry_iff name e

theorem resolver_catalog_first_match_witness :
    resolveCandidates [{ id := "x", title := "Amazon Prime Video" }] ("Prime Video") = ["x"]
    ∧ (matchesEntry ("Prime Video") { id := "x", title := "Amazon Prime Video" } = true ↔
        IsSubstr (pyLower ("Prime Video")) (pyLower ("Amazon Prime Video"))
        ∨ IsSubstr (pyLower ("Amazon Prime Video")) (pyLower ("Prime Video"))) :=
  resolver_catalog_first_match [] [] { id := "x", title := "Amazon Prime Video" }
    ("Prime Video") (by simp) (by decide)

/-- Claim C4: with no catalog match the resolver consults the static
fallback table by exact key equality only; a hit returns the table's
full ordered candidate sequence (a table row exists whose key is
exactly the requested name and whose sequence is returned unchanged),
a miss returns `[]`; the "ESPN" row is exactly
`["espn", "com.espn.webostv", "com.espn.app"]`. -/
theorem resolver_alias_fallback (catalog : List AppEntry) (name : String)
    (h : ∀ x ∈ catalog, matchesEntry name x = false) :
    (∀ ids, lookupFallback name = some ids →
        resolveCandidates catalog name = ids
        ∧ ∃ p, p ∈ fallback_ids ∧ p.1 = name ∧ p.2 = ids)
    ∧ (lookupFallback name = none → resolveCandidates catalog name = [])
    ∧ lookupFallback ("ESPN") = some ["espn", "com.espn.webostv", "com.espn.app"] := by
  have hnone := findCatalogMatch_eq_none name catalog h
  refine ⟨?_, ?_, by decide⟩
  · intro ids hids
    constructor
    · simp [resolveCandidates, hnone, hids]
    · cases hfind : fallback_ids.find? fun p => p.1 == name with
      | none =>
        rw [lookupFallback, hfind] at hids
        cases hids
      | some p =>
        rw [lookupFallback, hfind] at hids
        have hm := List.find?_some hfind
        have hmem : p ∈ fallback_ids := List.mem_of_find?_eq_some hfind
        refine ⟨p, hmem, by simpa using hm, ?_⟩
        simpa using hids
  · intro hnone2
    simp [resolveCandidates, hnone, hnone2]

theorem resolver_alias_fallback_witness :
    (∀ ids, lookupFallback ("ESPN") = some ids →
        resolveCandidates [] ("ESPN") = ids
        ∧ ∃ p, p ∈ fallback_ids ∧ p.1 = "ESPN" ∧ p.2 = ids)
    ∧ (lookupFallback ("ESPN") = none → resolveCandidates [] ("ESPN") = [])
    ∧ lookupFallback ("ESPN") = some ["espn", "com.espn.webostv", "com.espn.app"] :=
  resolver_alias_fallback [] ("ESPN") (by simp)

/-- Claim C5 counterexample: a timed-out wait and a device error with
an empty message produce identical caller-visible results from
`run_async` (both return `None`, both set the status to `"Error: "`),
and even for a non-empty device-error message the returned value is
the same `None` — so `TimedOut` is not a condition the caller can
distinguish from `DeviceError`. -/
theorem timeout_indistinguishable_counterexample :
    run_async true (AsyncOutcome.timedOut : AsyncOutcome Unit)
      = run_async true (AsyncOutcome.raised ("") : AsyncOutcome Unit)
    ∧ (run_async true (AsyncOutcome.timedOut : AsyncOutcome Unit)).1
      = (run_async true (AsyncOutcome.raised ("transport reset") : AsyncOutcome Unit)).1 :=
  ⟨rfl, rfl⟩

/-- Claim C5 (amended): on a timed-out wait the caller receives `None`
— the same returned value as for any device error, so the two outcomes
are not distinguishable in the value delivered to the caller (only the
status-bar text varies with the exception's message, and it coincides
with the timeout report when that message is empty); a successful
command is the only case that returns a value, and the bridge submits
the coroutine exactly once per call, never auto-retrying. -/
theorem run_async_timeout_reporting :
    (run_async true (AsyncOutcome.timedOut : AsyncOutcome Unit)).1 = none
    ∧ (run_async true (AsyncOutcome.timedOut : AsyncOutcome Unit)).2 = some ("Error: ")
    ∧ (∀ m : String, (run_async true (AsyncOutcome.raised m : AsyncOutcome Unit)).1 = none)
    ∧ (∀ v : Unit, (run_async true (AsyncOutcome.ok v)).1 = some v)
    ∧ run_async_submissions true = 1 :=
  ⟨rfl, rfl, fun _ => rfl, fun _ => rfl, rfl⟩

/-- Claim C6: the worker processes every submission in the sequence:
no submission's handling escapes as an uncaught fault (the worker
stays alive for every input sequence), exactly one response is
delivered per submission, and each response is a function of its own
submission's outcome — earlier failures never affect later commands. -/
theorem worker_survives_all_errors (α : Type) (outs : List (AsyncOutcome α)) :
    (worker_process outs).2 = true
    ∧ (worker_process outs).1 = outs.map (run_async true) := by
  induction outs with
  | nil => exact ⟨rfl, rfl⟩
  | cons o rest ih =>
    refine ⟨?_, ?_⟩ <;> simp [worker_process, try_handle, ih.1, ih.2]

theorem worker_survives_all_errors_witness :
    (worker_process [AsyncOutcome.raised ("boom"), AsyncOutcome.timedOut,
        AsyncOutcome.ok ()]).2 = true
    ∧ (worker_process [AsyncOutcome.raised ("boom"), AsyncOutcome.timedOut,
        AsyncOutcome.ok ()]).1
      = [AsyncOutcome.raised ("boom"), AsyncOutcome.timedOut,
          AsyncOutcome.ok ()].map (run_async true) :=
  worker_survives_all_errors Unit
    [AsyncOutcome.raised ("boom"), AsyncOutcome.timedOut, AsyncOutcome.ok ()]

/-- Claim C7: on a connected session `mute_toggle` issues exactly two
device calls — a read of the current mute state followed by a set of
its inverse, in that order — and no other device calls. -/
theorem mute_toggle_two_calls (r : LGTVRemote) (c : Client)
    (_hconn : r.connected = true) (hc : r.client = some c) :
    mute_toggle r = [DeviceCall.getMuted, DeviceCall.setMute (!c.muted)] := by
  simp [mute_toggle, hc]

theorem mute_toggle_two_calls_witness :
    rConnected.connected = true
    ∧ mute_toggle rConnected = [DeviceCall.getMuted, DeviceCall.setMute true] :=
  ⟨rfl, mute_toggle_two_calls rConnected
    { muted := false, apps := [], client_key := some ("k") } rfl rfl⟩

/-- Claim C8 counterexample: in a session that started with no stored
key, the first successful connect obtains pairing key `"k"` — held by
the remote and persisted to the config file — yet the key supplied to
the next connect attempt is still `None`: the newly obtained key is
not supplied on the next connect attempt, so re-pairing is not
skipped. -/
theorem pairing_key_not_resupplied_counterexample :
    st1.remote.client_key = some ("k")
    ∧ st1.config_file = some { tv_ip := some ("192.168.1.100"), client_key := some ("k") }
    ∧ suppliedKey st1 = none
    ∧ suppliedKey st1 ≠ st1.remote.client_key := by
  refine ⟨rfl, rfl, rfl, by decide⟩

/-- Claim C8 (amended): after every successful connect the config file
is overwritten whole with the current entry text and the newly issued
key, and the remote holds that key; but the key supplied to a connect
attempt is always the startup-loaded `saved_client_key`, which
`connect_tv` never updates — so a key newly obtained in this session
is persisted yet not supplied to later connect attempts until a
restart reloads it through `load_config`; `disconnect` never discards
the remote's stored key. -/
theorem pairing_key_lifecycle (st : GUIState) (dev : DeviceBehavior)
    (hip : pyIsEmpty (pyStrip st.ip_entry) = false) (hacc : dev.accept = true) :
    (connect_tv st dev).config_file
      = some { tv_ip := some st.ip_entry, client_key := some dev.issued_key }
    ∧ (connect_tv st dev).remote.client_key = some dev.issued_key
    ∧ (connect_tv st dev).saved_client_key = st.saved_client_key
    ∧ suppliedKey (connect_tv st dev) = st.saved_client_key
    ∧ (∀ r : LGTVRemote, (tv_disconnect r).1.client_key = r.client_key)
    ∧ (∀ (cfg : Config) (st2 : GUIState), st2.config_file = some cfg →
        (load_config st2).saved_client_key = cfg.client_key) := by
  refine ⟨?_, ?_, ?_, ?_, ?_, ?_⟩
  · simp [connect_tv, connect_to_tv, save_config, suppliedKey, hip, hacc]
  · simp [connect_tv, connect_to_tv, save_config, suppliedKey, hip, hacc]
  · simp [connect_tv, connect_to_tv, save_config, suppliedKey, hip, hacc]
  · simp [connect_tv, connect_to_tv, save_config, suppliedKey, hip, hacc]
  · intro r
    cases hc : r.client <;> simp [tv_disconnect, hc]
  · intro cfg st2 h2
    simp [load_config, h2]

theorem pairing_key_lifecycle_witness :
    (connect_tv st0 devAccept).config_file
      = some { tv_ip := some ("192.168.1.100"), client_key := some ("k") }
    ∧ (connect_tv st0 devAccept).remote.client_key = some ("k")
    ∧ (connect_tv st0 devAccept).saved_client_key = none
    ∧ suppliedKey (connect_tv st0 devAccept) = none
    ∧ (∀ r : LGTVRemote, (tv_disconnect r).1.client_key = r.client_key)
    ∧ (∀ (cfg : Config) (st2 : GUIState), st2.config_file = some cfg →
        (load_config st2).saved_client_key = cfg.client_key) :=
  pairing_key_lifecycle st0 devAccept (by decide) rfl

/-- Claim C9: the double-click handler resolves the attribute
`launch_app` on the GUI object, which none of the class's methods or
instance attributes provides, so for every selected title the handler
raises `AttributeError` and issues no launch request to the device. -/
theorem launch_selected_app_attribute_error (name : String) :
    launch_selected_app (some name) = Except.error ("AttributeError")
    ∧ tvRemoteGUI_attrs.contains ("launch_app") = false := by
  have h : tvRemoteGUI_attrs.contains ("launch_app") = false := by decide
  constructor
  · simp [launch_selected_app]
    decide
  · exact h

theorem launch_selected_app_attribute_error_witness :
    launch_selected_app (some ("YouTube")) = Except.error ("AttributeError")
    ∧ tvRemoteGUI_attrs.contains ("launch_app") = false :=
  launch_selected_app_attribute_error ("YouTube")

/-- Claim C10: `connect_to_tv` is not atomic on failure: the new
client is assigned before the awaited connect, so a failed connect
from a disconnected state reports failure yet leaves `client`
non-null with `connected = false`, and subsequent device operations —
guarded only by the client field — attempt device I/O against the
unconnected client. -/
theorem connect_failure_not_atomic (r : LGTVRemote) (ip : String)
    (key : Option String) (dev : DeviceBehavior)
    (hacc : dev.accept = false) (hconn : r.connected = false) :
    (connect_to_tv r ip key dev).2 = false
    ∧ (connect_to_tv r ip key dev).1.client ≠ none
    ∧ (connect_to_tv r ip key dev).1.connected = false
    ∧ volume_up (connect_to_tv r ip key dev).1 = [DeviceCall.volumeUp]
    ∧ (∀ aid, launch_app (connect_to_tv r ip key dev).1 aid = [DeviceCall.launchApp aid])
    ∧ mute_toggle (connect_to_tv r ip key dev).1 ≠ [] := by
  simp [connect_to_tv, hacc, hconn, volume_up, launch_app, mute_toggle]

theorem connect_failure_not_atomic_witness :
    (connect_to_tv freshRemote ("192.168.1.100") none devReject).2 = false
    ∧ (connect_to_tv freshRemote ("192.168.1.100") none devReject).1.client ≠ none
    ∧ (connect_to_tv freshRemote ("192.168.1.100") none devReject).1.connected = false
    ∧ volume_up (connect_to_tv freshRemote ("192.168.1.100") none devReject).1
        = [DeviceCall.volumeUp]
    ∧ (∀ aid, launch_app (connect_to_tv freshRemote ("192.168.1.100") none devReject).1 aid
        = [DeviceCall.launchApp aid])
    ∧ mute_toggle (connect_to_tv freshRemote ("192.168.1.100") none devReject).1 ≠ [] :=
  connect_failure_not_atomic freshRemote ("192.168.1.100") none devReject rfl rfl

end LGTV
